import Mathlib

/-!
Verification of the OpenLABEL annotation parser/converter
(`fiftyone/utils/openlabel.py`).

The Python code is shallowly embedded into Lean: raw JSON-ish annotation
nodes become typed structures, Python dicts become insertion-ordered
association lists, machine floats become rationals, and fallible code
(Python exceptions) returns `Except PyError`.  Every definition below is
translated line-by-line from the source file; comments cite the
corresponding Python.
-/

/-- Kinds of Python runtime errors raised by the embedded code. -/
inductive PyError where
  | typeError
  | valueError
  | attributeError
  | nameError
  | keyError
deriving DecidableEq, Repr

/-- JSON-like values carried in OpenLABEL dictionaries (attributes,
stream properties, etc.).  Coordinate arrays are handled separately as
`List Rat`. -/
inductive PVal where
  | num : Rat → PVal
  | str : String → PVal
  | boolv : Bool → PVal
  | arr : List PVal → PVal
  | dict : List (String × PVal) → PVal
  | null : PVal

/-- Python truthiness for a `PVal`. -/
def PVal.truthy : PVal → Bool
  | .num r => r ≠ 0
  | .str s => s ≠ ""
  | .boolv b => b
  | .arr l => !l.isEmpty
  | .dict d => !d.isEmpty
  | .null => false

/-- Python truthiness of an optional value whose payload has its own
truthiness (Python `None` is falsy). -/
def optTruthy (p : α → Bool) : Option α → Bool
  | some x => p x
  | none => false

/-- Truthiness of an optional string (`None` and `""` falsy). -/
def optStrTruthy : Option String → Bool := optTruthy (fun s => s ≠ "")

/-- Truthiness of an optional bool (`None` and `False` falsy). -/
def optBoolTruthy : Option Bool → Bool := optTruthy id

/-- Insertion-ordered association list standing in for a Python `dict`. -/
abbrev Assoc (κ : Type) (α : Type) := List (κ × α)

/-- `d[k]` lookup returning `None` on a missing key (`dict.get`). -/
def aget [BEq κ] (d : Assoc κ α) (k : κ) : Option α :=
  (d.find? (fun kv => kv.1 == k)).map (·.2)

/-- `k in d` membership test. -/
def amem [BEq κ] (d : Assoc κ α) (k : κ) : Bool :=
  d.any (fun kv => kv.1 == k)

/-- `d[k] = v`: replace the value in place if the key exists, otherwise
append the binding (Python dict assignment preserves key order). -/
def aset [BEq κ] (d : Assoc κ α) (k : κ) (v : α) : Assoc κ α :=
  if amem d k then d.map (fun kv => if kv.1 == k then (k, v) else kv)
  else d ++ [(k, v)]

/-- `d.pop(k, None)`: the popped value (if any) and the remaining dict. -/
def apop [BEq κ] (d : Assoc κ α) (k : κ) : Option α × Assoc κ α :=
  (aget d k, d.filter (fun kv => !(kv.1 == k)))

/-- `d.update(e)` applied entry by entry in `e`'s order. -/
def aupdate [BEq κ] (d e : Assoc κ α) : Assoc κ α :=
  e.foldl (fun acc kv => aset acc kv.1 kv.2) d

/-- Insert a string into a sorted list, keeping it sorted. -/
def insertSortedStr (x : String) : List String → List String
  | [] => [x]
  | y :: ys => if x ≤ y then x :: y :: ys else y :: insertSortedStr x ys

/-- Python `sorted(set(l))` for strings. -/
def sortedDedupStr (l : List String) : List String :=
  l.dedup.foldr insertSortedStr []

/-- Insert a natural number into a sorted list, keeping it sorted. -/
def insertSortedNat (x : Nat) : List Nat → List Nat
  | [] => [x]
  | y :: ys => if x ≤ y then x :: y :: ys else y :: insertSortedNat x ys

/-- Python `sorted(set(l))` for integers. -/
def sortedDedupNat (l : List Nat) : List Nat :=
  l.dedup.foldr insertSortedNat []

/-- Python slice `s[:n]` where `n` may be negative. -/
def pySliceTo (s : String) (n : Int) : String :=
  if n < 0 then s.take (max 0 ((s.length : Int) + n)).toNat
  else s.take n.toNat

/-! ## AttributeParser (source lines 908-939) -/

/-- The raw-node view consumed by `AttributeParser._parse_attributes`:
the flat key/value entries of the node, plus the nested `attributes`
member (a mapping from attribute-type to a list of `(name, val)`
records).  Structural coordinate keys (`val`, `bbox`, ...) that the
callers pop beforehand are held separately by those callers. -/
structure RawNode where
  entries : Assoc String PVal
  attrLists : Assoc String (List (String × PVal))

/-- The fixed key set removed from the flat view (`_ignore_keys`). -/
def ignoreKeys : List String :=
  ["frame_intervals", "val", "attributes", "object_data",
   "object_data_pointers", "bbox", "point2d", "poly2d"]

/-- `AttributeParser._STREAM_KEYS`. -/
def streamKeys : List String := ["stream", "coordinate_system"]

/-- `AttributeParser._parse_attributes`: split a raw node into plain
attributes and a distinguished stream reference. -/
def parse_attributes (d : RawNode) : Assoc String PVal × Option PVal :=
  let attributes := d.entries.filter (fun kv => decide (kv.1 ∉ ignoreKeys))
  -- for k in _STREAM_KEYS: if k in d: stream = d[k]  (later key wins)
  let stream0 := streamKeys.foldl
    (fun st k => match aget d.entries k with
      | some v => some v
      | none => st) (none : Option PVal)
  -- for attr_type, attrs in attributes_dict.items(): for attr in attrs: ...
  d.attrLists.foldl
    (fun st kv =>
      kv.2.foldl
        (fun st na =>
          let stream := if na.1.toLower ∈ streamKeys then some na.2 else st.2
          let attributes :=
            if na.1.toLower ∉ ignoreKeys then aset st.1 na.1 na.2 else st.1
          (attributes, stream))
        st)
    (attributes, stream0)

/-- Python truthiness of a raw node viewed as a dict (`if attributes:`). -/
def RawNode.truthy (d : RawNode) : Bool :=
  !d.entries.isEmpty || !d.attrLists.isEmpty

/-! ## Shape hierarchy (source lines 942-1052)

The source dispatches on the shape subclass (`OpenLABELBBox`,
`OpenLABELPoly2D`, `OpenLABELPoint`); here the subclass is a tag. -/

inductive ShapeKind where
  | bbox
  | poly2d
  | point2d
deriving DecidableEq, Repr

/-- One raw geometric record (`OpenLABELShape`): absolute coordinates
(`val`, possibly absent), local attributes and an optional stream
reference. -/
structure OpenLABELShape where
  kind : ShapeKind
  coords : Option (List Rat)
  attributes : Assoc String PVal
  stream : Option PVal

/-- The raw dictionary a shape is built from: the `val` coordinate array
plus the remaining node. -/
structure RawShapeDict where
  val : Option (List Rat)
  node : RawNode

/-- `OpenLABELShape.from_shape_dict`: pop `val`, parse the rest. -/
def OpenLABELShape.from_shape_dict (kind : ShapeKind) (d : RawShapeDict) :
    OpenLABELShape :=
  let pa := parse_attributes d.node
  { kind := kind, coords := d.val, attributes := pa.1, stream := pa.2 }

/-- The FiftyOne label objects produced by `to_label` (opaque output
constructors `fol.Detection` / `fol.Polyline` / `fol.Keypoint`). -/
inductive Label where
  | detection (label : Option String) (bounding_box : List Rat)
      (attrs : Assoc String PVal)
  | polyline (label : Option String) (points : List (List (Rat × Rat)))
      (filled closed : Bool) (attrs : Assoc String PVal)
  | keypoint (label : Option String) (points : List (Rat × Rat))
      (attrs : Assoc String PVal)

/-- The relative bounding box computed at source lines 964-967:
`x = cx - w/2`, `y = cy - h/2`, box `[x/W, y/H, w/W, h/H]`. -/
def OpenLABELBBox.bounding_box (cx cy w h width height : Rat) : List Rat :=
  [(cx - w / 2) / width, (cy - h / 2) / height, w / width, h / height]

/-- `OpenLABELBBox.to_label` (source lines 956-975).  `attributes` is the
inherited attribute map; the caller `_to_individual_labels` actually
passes Python `None` here (see below), modelled as `none`. -/
def OpenLABELBBox.to_label (sh : OpenLABELShape) (_label : Option String)
    (attributes : Option (Assoc String PVal)) (width height : Rat) :
    Except PyError Label := do
  -- num_coords = len(self.coords): `len(None)` raises TypeError
  let some cs := sh.coords | throw .typeError
  -- if num_coords != 4: raise ValueError(...)
  let [cx, cy, w, h] := cs | throw .valueError
  let _bb := OpenLABELBBox.bounding_box cx cy w h width height
  -- _attrs = deepcopy(attributes).update(self.attributes):
  -- on None `.update` raises AttributeError; on a dict, `dict.update`
  -- returns None, so `_attrs` is None either way
  let some _ := attributes | throw .attributeError
  -- fol.Detection(label=..., bounding_box=..., **_attrs):
  -- `**None` raises TypeError, so no Detection is ever constructed
  throw .typeError

/-- `_pairwise(x) = zip(y, y)`: consecutive pairs, dropping a trailing
odd element (source lines 1757-1759). -/
def pairwise : List Rat → List (Rat × Rat)
  | x :: y :: rest => (x, y) :: pairwise rest
  | _ => []

/-- The relative point rings computed at source lines 980-982. -/
def OpenLABELPoly2D.rel_points (coords : List Rat) (width height : Rat) :
    List (List (Rat × Rat)) :=
  [(pairwise coords).map (fun p => (p.1 / width, p.2 / height))]

/-- `OpenLABELPoly2D.to_label` (source lines 978-998). -/
def OpenLABELPoly2D.to_label (sh : OpenLABELShape) (_label : Option String)
    (attributes : Option (Assoc String PVal)) (width height : Rat) :
    Except PyError Label := do
  -- rel_points: iterating `None` coords raises TypeError
  let some cs := sh.coords | throw .typeError
  let _rel := OpenLABELPoly2D.rel_points cs width height
  -- _attrs = deepcopy(attributes).update(self.attributes): as for bbox,
  -- AttributeError when attributes is None, else `_attrs` is None
  let some _ := attributes | throw .attributeError
  -- filled = _attrs.pop("filled", None): `.pop` on None raises
  -- AttributeError, so no Polyline is ever constructed
  throw .attributeError

/-- `OpenLABELPoint.to_label` (source lines 1033-1052), reached only from
`_to_point_labels` with the synthetic multi-point shape.  The attribute
merge slip makes `_attrs` None; whichever of `skeleton_key in _attrs`
or `fol.Keypoint(..., **_attrs)` runs next raises TypeError. -/
def OpenLABELPoint.to_label (_sh : OpenLABELShape) (_label : Option String)
    (attributes : Option (Assoc String PVal)) (_width _height : Rat)
    (_skeleton : Option (List String)) (_skeleton_key : Option String) :
    Except PyError Label := do
  let some _ := attributes | throw .attributeError
  throw .typeError

/-! ## OpenLABELShapes (source lines 1055-1189) -/

/-- An ordered collection of shapes of one kind for one object, plus
collection-level attributes and an optional stream reference. -/
structure OpenLABELShapes where
  shapes : List OpenLABELShape
  attributes : Assoc String PVal
  stream : Option PVal

/-- The empty collection (`OpenLABELShapes()`). -/
def OpenLABELShapes.empty : OpenLABELShapes := ⟨[], [], none⟩

/-- `OpenLABELShapes.streams` (source lines 1061-1072): the truthy
stream references of the collection and its shapes. -/
def OpenLABELShapes.streamRefs (ss : OpenLABELShapes) : List PVal :=
  (match ss.stream with
   | some s => if s.truthy then [s] else []
   | none => []) ++
  ss.shapes.foldr
    (fun sh acc =>
      (match sh.stream with
       | some s => if s.truthy then [s] else []
       | none => []) ++ acc) []

/-- `OpenLABELShapes.from_object_data_list` (source lines 1074-1084):
build each shape from its raw record; parse the leftover `object_data`
keys (passed as `attributes`) when that dict is truthy. -/
def OpenLABELShapes.from_object_data_list (kind : ShapeKind)
    (l : List RawShapeDict) (attributes : Option RawNode) : OpenLABELShapes :=
  let shapes := l.map (OpenLABELShape.from_shape_dict kind)
  match attributes with
  | some node =>
    if node.truthy then
      let pa := parse_attributes node
      ⟨shapes, pa.1, pa.2⟩
    else ⟨shapes, [], none⟩
  | none => ⟨shapes, [], none⟩

/-- `OpenLABELShapes.merge_shapes` (source lines 1096-1099): append the
other collection's shapes and merge its attributes (other wins). -/
def OpenLABELShapes.merge_shapes (ss : OpenLABELShapes)
    (other : Option OpenLABELShapes) : OpenLABELShapes :=
  match other with
  | some o =>
    ⟨ss.shapes ++ o.shapes, aupdate ss.attributes o.attributes, ss.stream⟩
  | none => ss

/-- `OpenLABELShapes._homogenous_shape_types` (source lines 1123-1130). -/
def OpenLABELShapes.homogenous (ss : OpenLABELShapes) : Bool :=
  ((ss.shapes.map (·.kind)).dedup).length ≤ 1

/-- `OpenLABELShapes._to_individual_labels` (source lines 1183-1189).
`_attrs = deepcopy(attributes).update(self.attributes)` raises
AttributeError when `attributes` is None and otherwise leaves `_attrs`
as Python None, which is what each shape's `to_label` then receives. -/
def OpenLABELShapes.to_individual_labels (ss : OpenLABELShapes)
    (label : Option String) (attributes : Option (Assoc String PVal))
    (width height : Rat) : Except PyError (List Label) := do
  let some _ := attributes | throw .attributeError
  ss.shapes.mapM (fun sh =>
    match sh.kind with
    | .bbox => OpenLABELBBox.to_label sh label none width height
    | .poly2d => OpenLABELPoly2D.to_label sh label none width height
    | .point2d =>
      OpenLABELPoint.to_label sh label none width height none none)

/-- `OpenLABELShapes._to_point_labels` (source lines 1132-1181): empty
collections yield no label; heterogeneous or non-point collections raise
ValueError; otherwise the accumulation loop `for k, v in
shape.attributes` unpacks each attribute KEY as a 2-tuple (ValueError
unless every key has exactly two characters), and the synthetic shape's
`to_label` then raises as modelled above. -/
def OpenLABELShapes.to_point_labels (ss : OpenLABELShapes)
    (label : Option String) (attributes : Option (Assoc String PVal))
    (width height : Rat) (skeleton : Option (List String))
    (skeleton_key : Option String) : Except PyError (List Label) := do
  if ss.shapes.isEmpty then
    return []
  if !ss.homogenous || !(ss.shapes.head?.any (fun sh => sh.kind = .point2d)) then
    throw .valueError
  if ss.shapes.any (fun sh => sh.attributes.any (fun kv => kv.1.length ≠ 2)) then
    throw .valueError
  let synthetic : OpenLABELShape :=
    ⟨.point2d, none, [], ss.shapes.foldl (fun st sh =>
        match sh.stream with
        | some s => if s.truthy then some s else st
        | none => st) none⟩
  let l ← OpenLABELPoint.to_label synthetic label attributes width height
    skeleton skeleton_key
  return [l]

/-- `OpenLABELShapes.to_labels` (source lines 1101-1121). -/
def OpenLABELShapes.to_labels (ss : OpenLABELShapes) (label : Option String)
    (attributes : Option (Assoc String PVal)) (width height : Rat)
    (is_points : Bool) (skeleton : Option (List String))
    (skeleton_key : Option String) : Except PyError (List Label) :=
  if is_points then
    ss.to_point_labels label attributes width height skeleton skeleton_key
  else
    ss.to_individual_labels label attributes width height

/-! ## OpenLABELStream (source lines 1192-1346) -/

/-- `OpenLABELStream`: one named sensor/media reference.  The fields are
`name`, `type`, `properties` (the raw `stream_properties` dict), the
resolved `height`/`width`, `other_attrs`, the stream's own `_uris`, and
the frame-number-indexed nested streams.  Recursive, hence an inductive
with explicit accessors. -/
inductive OpenLABELStream where
  | mk (name : String) (type : Option String)
       (properties : Option (Assoc String PVal))
       (height width : Option Rat)
       (other_attrs : Assoc String PVal)
       (ownUris : List String)
       (frame_streams : List (Nat × OpenLABELStream))

def OpenLABELStream.name : OpenLABELStream → String
  | .mk n _ _ _ _ _ _ _ => n

def OpenLABELStream.type : OpenLABELStream → Option String
  | .mk _ t _ _ _ _ _ _ => t

def OpenLABELStream.properties : OpenLABELStream → Option (Assoc String PVal)
  | .mk _ _ p _ _ _ _ _ => p

def OpenLABELStream.height : OpenLABELStream → Option Rat
  | .mk _ _ _ h _ _ _ _ => h

def OpenLABELStream.width : OpenLABELStream → Option Rat
  | .mk _ _ _ _ w _ _ _ => w

def OpenLABELStream.other_attrs : OpenLABELStream → Assoc String PVal
  | .mk _ _ _ _ _ oa _ _ => oa

def OpenLABELStream.ownUris : OpenLABELStream → List String
  | .mk _ _ _ _ _ _ u _ => u

def OpenLABELStream.frame_streams :
    OpenLABELStream → List (Nat × OpenLABELStream)
  | .mk _ _ _ _ _ _ _ fs => fs

/-- `OpenLABELStream._HEIGHT_KEYS`. -/
def heightKeys : List String := ["height", "height_px"]

/-- `OpenLABELStream._WIDTH_KEYS`. -/
def widthKeys : List String := ["width", "width_px"]

/-- `etau.is_numeric`: numeric JSON values (Python bools are ints). -/
def PVal.numeric : PVal → Option Rat
  | .num r => some r
  | .boolv b => some (if b then 1 else 0)
  | _ => none

/-- `OpenLABELStream._check_height_width` (source lines 1237-1242). -/
def checkHeightWidth (hw : Option Rat × Option Rat) (k : String) (v : Rat) :
    Option Rat × Option Rat :=
  ((if k.toLower ∈ heightKeys then some v else hw.1),
   (if k.toLower ∈ widthKeys then some v else hw.2))

/-- `OpenLABELStream._parse_properties_dict` (source lines 1230-1235):
recursively scan for numeric height/width aliases. -/
def parsePropertiesDict (hw : Option Rat × Option Rat) :
    List (String × PVal) → Option Rat × Option Rat
  | [] => hw
  | (k, v) :: rest =>
    match v with
    | .dict d => parsePropertiesDict (parsePropertiesDict hw d) rest
    | _ =>
      match v.numeric with
      | some r => parsePropertiesDict (checkHeightWidth hw k r) rest
      | none => parsePropertiesDict hw rest

/-- The raw stream dictionary as accessed by `_parse_stream_dict`
(source lines 1335-1346): the popped `type`, `stream_properties` and
`uri` values plus the remaining keys. -/
structure RawStreamDict where
  type : Option String
  stream_properties : Option (Assoc String PVal)
  uri : Option String
  rest : Assoc String PVal

/-- `OpenLABELStream._parse_stream_dict`: `(type, properties, uris,
other_attrs)`.  A URI is collected only when truthy. -/
def parse_stream_dict (d : RawStreamDict) :
    Option String × Option (Assoc String PVal) × List String ×
      Assoc String PVal :=
  let uris := match d.uri with
    | some u => if u ≠ "" then [u] else []
    | none => []
  (d.type, d.stream_properties, uris, d.rest)

/-- `OpenLABELStream(name)`: the bare constructor used for nested frame
streams. -/
def OpenLABELStream.base (name : String) : OpenLABELStream :=
  .mk name none none none none [] [] []

/-- `self.type = _type` for an accepted camera type (source line 1267). -/
def OpenLABELStream.setType (s : OpenLABELStream) (t : Option String) :
    OpenLABELStream :=
  match s with
  | .mk n _ pr hh ww oa u fs => .mk n t pr hh ww oa u fs

/-- `if properties: self.properties = properties;
self._parse_properties_dict(properties)` (source lines 1269-1271). -/
def OpenLABELStream.applyProperties (s : OpenLABELStream)
    (properties : Option (Assoc String PVal)) : OpenLABELStream :=
  match properties with
  | some props =>
    if !props.isEmpty then
      match s with
      | .mk n t _ hh ww oa u fs =>
        let hw := parsePropertiesDict (hh, ww) props
        .mk n t (some props) hw.1 hw.2 oa u fs
    else s
  | none => s

/-- `if uris: self._uris = sorted(set(self._uris + uris))` (source lines
1273-1274). -/
def OpenLABELStream.applyUris (s : OpenLABELStream) (uris : List String) :
    OpenLABELStream :=
  if uris.isEmpty then s
  else
    match s with
    | .mk n t pr hh ww oa u fs =>
      .mk n t pr hh ww oa (sortedDedupStr (u ++ uris)) fs

/-- `if other_attrs: self.other_attrs.update(other_attrs)` (source lines
1276-1277). -/
def OpenLABELStream.applyOtherAttrs (s : OpenLABELStream)
    (other : Assoc String PVal) : OpenLABELStream :=
  if other.isEmpty then s
  else
    match s with
    | .mk n t pr hh ww oa u fs => .mk n t pr hh ww (aupdate oa other) u fs

/-- The frame-number-free body of `update_dict` (source lines 1260-1277):
reject the whole update when a truthy `type` is not `"camera"`, else
merge type/properties/uris/other attributes. -/
def OpenLABELStream.update_top (s : OpenLABELStream) (d : RawStreamDict) :
    OpenLABELStream :=
  let p := parse_stream_dict d
  let t := p.1
  let properties := p.2.1
  let uris := p.2.2.1
  let other := p.2.2.2
  -- if _type: / if _type != "camera": return / self.type = _type
  let tRes : Option OpenLABELStream :=
    if optStrTruthy t then
      if t ≠ some "camera" then none
      else some (s.setType t)
    else some s
  match tRes with
  | none => s
  | some s1 => ((s1.applyProperties properties).applyUris uris).applyOtherAttrs other

/-- `OpenLABELStream.update_dict` (source lines 1244-1277).  Note the
Python truthiness test `if frame_number:`: frame number `0` falls
through to the top-level branch. -/
def OpenLABELStream.update_dict (s : OpenLABELStream) (d : RawStreamDict)
    (frame_number : Option Nat) : OpenLABELStream :=
  match frame_number with
  | some n =>
    if n = 0 then s.update_top d
    else
      -- frame_stream = self.frame_streams.get(n, OpenLABELStream(self.name))
      let fs0 := (aget s.frame_streams n).getD (OpenLABELStream.base s.name)
      let fs1 := fs0.update_top d
      .mk s.name s.type s.properties s.height s.width s.other_attrs s.ownUris
        (aset s.frame_streams n fs1)
  | none => s.update_top d

mutual

/-- `OpenLABELStream.uris` (source lines 1279-1285): the stream's own
URIs plus those of every nested frame stream, deduplicated and sorted. -/
def OpenLABELStream.uris : OpenLABELStream → List String
  | .mk _ _ _ _ _ _ u fs => sortedDedupStr (u ++ OpenLABELStream.urisOfFrames fs)

/-- The `for _stream in self.frame_streams.values(): _uris.extend(_stream.uris)`
loop of the `uris` property. -/
def OpenLABELStream.urisOfFrames : List (Nat × OpenLABELStream) → List String
  | [] => []
  | p :: rest => OpenLABELStream.uris p.2 ++ OpenLABELStream.urisOfFrames rest

end

/-- `OpenLABELStream.get_frame_numbers` (source lines 1287-1304). -/
def OpenLABELStream.get_frame_numbers (s : OpenLABELStream) (uri : String) :
    List Nat × Bool :=
  if uri ∈ s.ownUris then
    (s.frame_streams.map (·.1), true)
  else
    ((s.frame_streams.filter (fun p => uri ∈ p.2.uris)).map (·.1), false)

/-- `OpenLABELStream.from_anno_dict` (source lines 1306-1333).  Returns
`none` when the stream is discarded (truthy non-camera `type`). -/
def OpenLABELStream.from_anno_dict (stream_name : String) (d : RawStreamDict)
    (frame_number : Option Nat) : Option OpenLABELStream :=
  match frame_number with
  | some n =>
    -- if frame_number is not None: stream = cls(stream_name); update
    some ((OpenLABELStream.base stream_name).update_dict d (some n))
  | none =>
    let p := parse_stream_dict d
    let t := p.1
    let properties := p.2.1
    let uris := p.2.2.1
    let other := p.2.2.2
    -- if _type and _type != "camera": return None
    if optStrTruthy t && t ≠ some "camera" then none
    else
      -- cls(stream_name, type=..., properties=..., uris=..., other_attrs=...)
      let hw : Option Rat × Option Rat :=
        match properties with
        | some props =>
          if !props.isEmpty then parsePropertiesDict (none, none) props
          else (none, none)
        | none => (none, none)
      some (.mk stream_name t properties hw.1 hw.2 other uris [])

/-! ## OpenLABELStreamInfo / OpenLABELStreamInfos (source lines 573-621) -/

/-- `OpenLABELStreamInfo`: a resolved, read-only binding of a stream to a
requested media URI.  Every field defaults to Python `None`. -/
structure OpenLABELStreamInfo where
  frame_numbers : Option (List Nat) := none
  stream : Option OpenLABELStream := none
  label_file_id : Option String := none
  is_sample_level : Option Bool := none

/-- `OpenLABELStreamInfo.is_streamless` (source lines 611-613). -/
def OpenLABELStreamInfo.is_streamless (i : OpenLABELStreamInfo) : Bool :=
  i.stream.isNone

/-- `OpenLABELStreamInfo.get_stream_attributes` (source lines 615-620). -/
def OpenLABELStreamInfo.get_stream_attributes (i : OpenLABELStreamInfo) :
    Assoc String PVal :=
  match i.stream with
  | some s => aupdate [] s.other_attrs
  | none => []

/-- `OpenLABELStreamInfos`: a list of resolved stream infos. -/
structure OpenLABELStreamInfos where
  infos : List OpenLABELStreamInfo

/-- `OpenLABELStreamInfos.get_stream_attributes` (source lines 577-587):
merge the attributes of every info that applies at the requested frame
number (or at sample level when no frame number is given). -/
def OpenLABELStreamInfos.get_stream_attributes (is : OpenLABELStreamInfos)
    (frame_number : Option Nat) : Assoc String PVal :=
  is.infos.foldl
    (fun attributes info =>
      let is_sample := frame_number.isNone && optBoolTruthy info.is_sample_level
      -- info.frame_numbers and frame_number in info.frame_numbers
      let has_frame_number :=
        match info.frame_numbers with
        | some l =>
          !l.isEmpty &&
            (match frame_number with
             | some n => decide (n ∈ l)
             | none => false)
        | none => false
      if is_sample || has_frame_number then
        aupdate attributes info.get_stream_attributes
      else attributes)
    []

/-- `OpenLABELStreamInfos.frame_numbers` (source lines 589-595). -/
def OpenLABELStreamInfos.frame_numbers (is : OpenLABELStreamInfos) :
    List Nat :=
  sortedDedupNat (is.infos.foldr
    (fun info acc =>
      match info.frame_numbers with
      | some l => if !l.isEmpty then l ++ acc else acc
      | none => acc)
    [])

/-! ## OpenLABELGroup identity helpers and the stream registry
(source lines 708-905) -/

/-- `OpenLABELGroup._get_element_id` (source lines 727-729):
`"%s_%s" % (label_file_id, name)`. -/
def getElementId (label_file_id key : String) : String :=
  label_file_id ++ "_" ++ key

/-- `OpenLABELGroup._get_label_file_id` (source lines 731-733):
`element_id[: len(element_name) - 1]`, written exactly as in the source
(Python slicing, possibly with a negative bound). -/
def getLabelFileId (element_id element_name : String) : String :=
  pySliceTo element_id ((element_name.length : Int) - 1)

/-- `OpenLABELStreams`: the stream registry.  Sets
(`_keys_by_label_file_id` values and `_uri_to_stream_ids` values) are
modelled as sorted duplicate-free lists. -/
structure OpenLABELStreams where
  element_id_to_element : Assoc String OpenLABELStream := []
  keys_by_label_file_id : Assoc String (List String) := []
  uri_to_stream_ids : Assoc String (List String) := []

/-- A fresh registry (`OpenLABELStreams()`). -/
def OpenLABELStreams.empty : OpenLABELStreams := {}

/-- `OpenLABELGroup._add_element_dict` specialised to streams (source
lines 735-758): create the element on first encounter, update it
otherwise, and register it only when it is truthy (non-`None`). -/
def OpenLABELStreams.add_element_dict (st : OpenLABELStreams)
    (label_file_id key : String) (d : RawStreamDict)
    (frame_number : Option Nat) : OpenLABELStreams × Option OpenLABELStream :=
  let element_id := getElementId label_file_id key
  let element : Option OpenLABELStream :=
    match aget st.element_id_to_element element_id with
    | none => OpenLABELStream.from_anno_dict key d frame_number
    | some el => some (el.update_dict d frame_number)
  match element with
  | some el =>
    ({ st with
        element_id_to_element := aset st.element_id_to_element element_id el,
        keys_by_label_file_id :=
          aset st.keys_by_label_file_id label_file_id
            (sortedDedupStr
              ((aget st.keys_by_label_file_id label_file_id).getD [] ++ [key])) },
     some el)
  | none => (st, none)

/-- `OpenLABELStreams._add_stream_dict` (source lines 857-876): add or
update the stream, then index every URI it now exposes. -/
def OpenLABELStreams.add_stream_dict (st : OpenLABELStreams)
    (label_file_id stream_name : String) (d : RawStreamDict)
    (frame_number : Option Nat) : OpenLABELStreams :=
  let res := st.add_element_dict label_file_id stream_name d frame_number
  let stream_id := getElementId label_file_id stream_name
  match res.2 with
  | some stream =>
    { res.1 with
        uri_to_stream_ids :=
          stream.uris.foldl
            (fun uts uri =>
              aset uts uri
                (sortedDedupStr ((aget uts uri).getD [] ++ [stream_id])))
            res.1.uri_to_stream_ids }
  | none => res.1

/-- `OpenLABELStreams.parse_streams_dict` (source lines 828-840). -/
def OpenLABELStreams.parse_streams_dict (st : OpenLABELStreams)
    (streams_dict : Assoc String RawStreamDict) (label_file_id : String)
    (frame_number : Option Nat) : OpenLABELStreams :=
  streams_dict.foldl
    (fun st kv => st.add_stream_dict label_file_id kv.1 kv.2 frame_number)
    st

/-- `OpenLABELStreams.get_stream_info` (source lines 878-905).  In the
unmatched branch the source reads the local variable `label_file_id`,
which is never assigned on that path, raising `UnboundLocalError` (a
`NameError`). -/
def OpenLABELStreams.get_stream_info (st : OpenLABELStreams) (uri : String) :
    Except PyError OpenLABELStreamInfos := do
  match aget st.uri_to_stream_ids uri with
  | some stream_ids =>
    let infos ← stream_ids.mapM (fun stream_id => do
      -- stream = self._element_id_to_element[stream_id]
      let some stream := aget st.element_id_to_element stream_id
        | throw PyError.keyError
      let label_file_id := getLabelFileId stream_id stream.name
      let fn := stream.get_frame_numbers uri
      pure { frame_numbers := some fn.1, stream := some stream,
             label_file_id := some label_file_id,
             is_sample_level := some fn.2 : OpenLABELStreamInfo })
    return ⟨infos⟩
  | none =>
    -- OpenLABELStreamInfo(label_file_id=label_file_id, is_sample_level=True):
    -- `label_file_id` is unbound here
    throw PyError.nameError

/-! ## OpenLABELObject (source lines 1383-1703) -/

/-- `OpenLABELObject`: one annotated entity.  The source stores the three
shape collections in a dict with fixed keys `"bboxes"`,
`"segmentations"`, `"keypoints"`; here they are three fields.
Recursive through the frame-number-indexed overrides. -/
inductive OpenLABELObject where
  | mk (key : String) (name : Option String) (type : Option String)
       (bboxes : OpenLABELShapes) (segmentations : OpenLABELShapes)
       (keypoints : OpenLABELShapes)
       (stream : Option PVal)
       (other_attrs : Assoc String PVal)
       (frame_objects : List (Nat × OpenLABELObject))
       (is_frame_level : Bool)

def OpenLABELObject.key : OpenLABELObject → String
  | .mk k _ _ _ _ _ _ _ _ _ => k

def OpenLABELObject.name : OpenLABELObject → Option String
  | .mk _ n _ _ _ _ _ _ _ _ => n

def OpenLABELObject.type : OpenLABELObject → Option String
  | .mk _ _ t _ _ _ _ _ _ _ => t

def OpenLABELObject.bboxes : OpenLABELObject → OpenLABELShapes
  | .mk _ _ _ b _ _ _ _ _ _ => b

def OpenLABELObject.segmentations : OpenLABELObject → OpenLABELShapes
  | .mk _ _ _ _ s _ _ _ _ _ => s

def OpenLABELObject.keypoints : OpenLABELObject → OpenLABELShapes
  | .mk _ _ _ _ _ k _ _ _ _ => k

def OpenLABELObject.stream : OpenLABELObject → Option PVal
  | .mk _ _ _ _ _ _ s _ _ _ => s

def OpenLABELObject.other_attrs : OpenLABELObject → Assoc String PVal
  | .mk _ _ _ _ _ _ _ oa _ _ => oa

def OpenLABELObject.frame_objects :
    OpenLABELObject → List (Nat × OpenLABELObject)
  | .mk _ _ _ _ _ _ _ _ fo _ => fo

def OpenLABELObject.is_frame_level : OpenLABELObject → Bool
  | .mk _ _ _ _ _ _ _ _ _ fl => fl

/-- The shape collection stored under the given key of `self.shapes`. -/
def OpenLABELObject.shapesOf (o : OpenLABELObject) : ShapeKind →
    OpenLABELShapes
  | .bbox => o.bboxes
  | .poly2d => o.segmentations
  | .point2d => o.keypoints

/-- `OpenLABELObject._sample_level_streams` (source lines 1437-1443):
`[self.stream]` — the raw field, `None` included — extended with each
shape collection's (truthy) stream references. -/
def OpenLABELObject.sample_level_streams (o : OpenLABELObject) :
    List (Option PVal) :=
  ([o.stream] ++
    (o.bboxes.streamRefs ++ o.segmentations.streamRefs ++
      o.keypoints.streamRefs).map some)

/-- `OpenLABELObject.is_streamless` (source lines 1454-1456):
`bool(self._sample_level_streams)` — the truthiness of the LIST, which
always contains at least `self.stream` (even when that is `None`). -/
def OpenLABELObject.is_streamless (o : OpenLABELObject) : Bool :=
  !o.sample_level_streams.isEmpty

/-- `OpenLABELObject.keep_frames` (source lines 1472-1476): deep-copy the
object, then `pop` each LISTED frame number from its overrides. -/
def OpenLABELObject.keep_frames (o : OpenLABELObject)
    (frame_numbers : List Nat) : OpenLABELObject :=
  frame_numbers.foldl
    (fun acc n =>
      match acc with
      | .mk k nm t b s kp str oa fo fl =>
        .mk k nm t b s kp str oa ((apop fo n).2) fl)
    o

/-- `OpenLABELObject.filter_stream` (source lines 1458-1470).  Iterating
`stream_info.frame_numbers` when that field is `None` would raise
TypeError inside `keep_frames`. -/
def OpenLABELObject.filter_stream (o : OpenLABELObject)
    (stream_info : OpenLABELStreamInfo) :
    Except PyError (Option OpenLABELObject) :=
  if stream_info.is_streamless then
    if o.is_frame_level || !o.is_streamless then .ok none
    else .ok (some o)
  else if optBoolTruthy stream_info.is_sample_level then .ok (some o)
  else
    match stream_info.frame_numbers with
    | some fns => .ok (some (o.keep_frames fns))
    | none => .error .typeError

/-- The parent-free part of `_get_object_attributes` (source lines
1689-1703): name, OpenLABEL key, then `other_attrs`. -/
def OpenLABELObject.object_attributes_own (o : OpenLABELObject) :
    Assoc String PVal :=
  let attributes : Assoc String PVal := []
  let attributes := match o.name with
    | some n => aset attributes "name" (.str n)
    | none => attributes
  -- self.key is never None in the embedding (always a string)
  let attributes := aset attributes "OpenLABEL_id" (.str o.key)
  aupdate attributes o.other_attrs

/-- `OpenLABELObject._get_object_attributes(parent)`: parent attributes
first (computed without a grandparent), own values layered on top. -/
def OpenLABELObject.get_object_attributes (o : OpenLABELObject)
    (parent : Option OpenLABELObject) : Assoc String PVal :=
  let attributes : Assoc String PVal :=
    match parent with
    | some p => aupdate [] p.object_attributes_own
    | none => []
  let attributes := match o.name with
    | some n => aset attributes "name" (.str n)
    | none => attributes
  let attributes := aset attributes "OpenLABEL_id" (.str o.key)
  aupdate attributes o.other_attrs

/-- The values computed by `_get_label_attrs` (source lines 1530-1538). -/
structure LabelAttrs where
  label : Option String
  attributes : Assoc String PVal
  width : Rat
  height : Rat

/-- `OpenLABELObject._get_label_attrs`: the label string (inherited from
the parent when unset) and the inherited attribute map. -/
def OpenLABELObject.get_label_attrs (o : OpenLABELObject)
    (frame_size : Rat × Rat) (parent : Option OpenLABELObject) : LabelAttrs :=
  let label := match o.type with
    | some t => some t
    | none => match parent with
      | some p => p.type
      | none => none
  ⟨label, o.get_object_attributes parent, frame_size.1, frame_size.2⟩

mutual

/-- `OpenLABELObject._to_labels` (source lines 1478-1515): project the
top-level shapes under the `None` key and each frame override's
top-level result under its frame number. -/
def OpenLABELObject.to_labels_internal (o : OpenLABELObject)
    (frame_size : Rat × Rat) (shape_type : ShapeKind)
    (parent : Option OpenLABELObject) (is_points : Bool)
    (skeleton : Option (List String)) (skeleton_key : Option String) :
    Except PyError (List (Option Nat × List Label)) := do
  let la := o.get_label_attrs frame_size parent
  let top ← (o.shapesOf shape_type).to_labels la.label (some la.attributes)
    la.width la.height is_points skeleton skeleton_key
  let rest ← OpenLABELObject.frames_to_labels o.frame_objects frame_size
    shape_type o is_points skeleton skeleton_key
  pure ((none, top) :: rest)
termination_by sizeOf o
decreasing_by
  cases o with
  | mk k nm t b sg kp str oa fo fl =>
    simp [OpenLABELObject.frame_objects]
    omega

/-- The `for frame_number, frame_object in self.frame_objects.items()`
loop of `_to_labels`: each child contributes its `[None]` entry under
its own frame number. -/
def OpenLABELObject.frames_to_labels :
    List (Nat × OpenLABELObject) → Rat × Rat → ShapeKind →
    OpenLABELObject → Bool → Option (List String) → Option String →
    Except PyError (List (Option Nat × List Label))
  | [], _, _, _, _, _, _ => pure []
  | (n, child) :: rest, frame_size, shape_type, parent, is_points,
      skeleton, skeleton_key => do
    let childLabels ← child.to_labels_internal frame_size shape_type
      (some parent) is_points skeleton skeleton_key
    let restLabels ← OpenLABELObject.frames_to_labels rest frame_size
      shape_type parent is_points skeleton skeleton_key
    pure ((some n,
      ((childLabels.find? (fun kv => kv.1.isNone)).map (·.2)).getD []) ::
      restLabels)
termination_by l _ _ _ _ _ _ => sizeOf l
decreasing_by
  all_goals
    simp
    try omega

end

/-- `OpenLABELObject.to_detections` (source lines 1517-1528): the body
evaluates `self._to_labels(frame_size, "bboxes")` but has no `return`
statement, so the method returns Python `None` despite its docstring. -/
def OpenLABELObject.to_detections (o : OpenLABELObject)
    (frame_size : Rat × Rat) : Except PyError Unit := do
  let _ ← o.to_labels_internal frame_size .bbox none false none none
  pure ()

/-- `OpenLABELObject.to_polylines` (source lines 1540-1551): likewise
evaluates `_to_labels` and returns `None`. -/
def OpenLABELObject.to_polylines (o : OpenLABELObject)
    (frame_size : Rat × Rat) : Except PyError Unit := do
  let _ ← o.to_labels_internal frame_size .poly2d none false none none
  pure ()

/-- `OpenLABELObject.to_keypoints` (source lines 1553-1570): likewise
evaluates `_to_labels` and returns `None`. -/
def OpenLABELObject.to_keypoints (o : OpenLABELObject)
    (frame_size : Rat × Rat) (skeleton : Option (List String))
    (skeleton_key : Option String) : Except PyError Unit := do
  let _ ← o.to_labels_internal frame_size .point2d none true skeleton
    skeleton_key
  pure ()

/-! ## Parsing raw object dictionaries (source lines 1572-1687) -/

/-- The `object_data` member of a raw object dict: the three shape lists
(already normalised from dict-to-singleton-list by `_get_shape_list`)
plus the remaining keys. -/
structure RawObjectData where
  bbox : List RawShapeDict := []
  poly2d : List RawShapeDict := []
  point2d : List RawShapeDict := []
  rest : RawNode := ⟨[], []⟩

/-- A raw object dictionary as accessed by `_parse_object_dict`: popped
`object_data`, `name` and `type`, plus the remaining node. -/
structure RawObjectDict where
  object_data : Option RawObjectData := none
  name : Option String := none
  type : Option String := none
  node : RawNode := ⟨[], []⟩

/-- The tuple returned by `_parse_object_dict` (source lines 1618-1648). -/
structure ParsedObject where
  bboxes : OpenLABELShapes
  segmentations : OpenLABELShapes
  points : OpenLABELShapes
  name : Option String
  type : Option String
  stream : Option PVal
  other_attrs : Assoc String PVal

/-- `OpenLABELObject._parse_object_dict`. -/
def parse_object_dict (d : RawObjectDict) : ParsedObject :=
  -- object_data = d.pop("object_data", {})
  let od := d.object_data.getD {}
  let bboxes := OpenLABELShapes.from_object_data_list .bbox od.bbox
    (some od.rest)
  let segmentations := OpenLABELShapes.from_object_data_list .poly2d od.poly2d
    (some od.rest)
  let points := OpenLABELShapes.from_object_data_list .point2d od.point2d
    (some od.rest)
  let pa := parse_attributes d.node
  ⟨bboxes, segmentations, points, d.name, d.type, pa.2, pa.1⟩

/-- `OpenLABELObject(key, is_frame_level=...)`: bare constructor with the
source's defaults (fresh empty shape collections). -/
def OpenLABELObject.base (key : String) (is_frame_level : Bool) :
    OpenLABELObject :=
  .mk key none none OpenLABELShapes.empty OpenLABELShapes.empty
    OpenLABELShapes.empty none [] [] is_frame_level

/-- The frame-number-free body of `OpenLABELObject.update_dict` (source
lines 1666-1687): merge shapes, set name/stream only when previously
unset (Python truthiness on both sides), merge `other_attrs`.  Note the
parsed `type` is dropped: `update_dict` never assigns `self.type`. -/
def OpenLABELObject.update_top (o : OpenLABELObject) (d : RawObjectDict) :
    OpenLABELObject :=
  let p := parse_object_dict d
  match o with
  | .mk k nm t b sg kp str oa fo fl =>
    let b := b.merge_shapes (some p.bboxes)
    let sg := sg.merge_shapes (some p.segmentations)
    let kp := kp.merge_shapes (some p.points)
    -- if name and not self.name: self.name = name
    let nm := if optStrTruthy p.name && !optStrTruthy nm then p.name else nm
    -- if stream and not self.stream: self.stream = stream
    let str :=
      if optTruthy PVal.truthy p.stream && !optTruthy PVal.truthy str then
        p.stream
      else str
    .mk k nm t b sg kp str (aupdate oa p.other_attrs) fo fl

/-- `OpenLABELObject.update_dict` (source lines 1650-1665).  As for
streams, `if frame_number:` is a truthiness test, so frame number `0`
falls through to the top-level branch. -/
def OpenLABELObject.update_dict (o : OpenLABELObject) (d : RawObjectDict)
    (frame_number : Option Nat) : OpenLABELObject :=
  match frame_number with
  | some n =>
    if n = 0 then o.update_top d
    else
      let fo0 := (aget o.frame_objects n).getD
        (OpenLABELObject.base o.key true)
      let fo1 := fo0.update_top d
      match o with
      | .mk k nm t b sg kp str oa fo fl =>
        .mk k nm t b sg kp str oa (aset fo n fo1) fl
  | none => o.update_top d

/-- `OpenLABELObject.from_anno_dict` (source lines 1572-1609). -/
def OpenLABELObject.from_anno_dict (obj_key : String) (d : RawObjectDict)
    (frame_number : Option Nat) : OpenLABELObject :=
  match frame_number with
  | some n =>
    -- obj = cls(obj_key, is_frame_level=False); obj.update_dict(d, n)
    (OpenLABELObject.base obj_key false).update_dict d (some n)
  | none =>
    let p := parse_object_dict d
    .mk obj_key p.name p.type p.bboxes p.segmentations p.points p.stream
      p.other_attrs [] false

/-! ## OpenLABELObjects registry (source lines 761-811) -/

/-- `OpenLABELObjects`: the object registry. -/
structure OpenLABELObjects where
  element_id_to_element : Assoc String OpenLABELObject := []
  keys_by_label_file_id : Assoc String (List String) := []

/-- A fresh registry (`OpenLABELObjects()`). -/
def OpenLABELObjects.empty : OpenLABELObjects := {}

/-- `OpenLABELObjects.all_objects` (source lines 775-777). -/
def OpenLABELObjects.all_objects (g : OpenLABELObjects) :
    List OpenLABELObject :=
  g.element_id_to_element.map (·.2)

/-- `OpenLABELGroup._add_element_dict` specialised to objects: objects
are always truthy, so the element is always (re)registered. -/
def OpenLABELObjects.add_element_dict (g : OpenLABELObjects)
    (label_file_id key : String) (d : RawObjectDict)
    (frame_number : Option Nat) : OpenLABELObjects :=
  let element_id := getElementId label_file_id key
  let element : OpenLABELObject :=
    match aget g.element_id_to_element element_id with
    | none => OpenLABELObject.from_anno_dict key d frame_number
    | some el => el.update_dict d frame_number
  { g with
      element_id_to_element := aset g.element_id_to_element element_id element,
      keys_by_label_file_id :=
        aset g.keys_by_label_file_id label_file_id
          (sortedDedupStr
            ((aget g.keys_by_label_file_id label_file_id).getD [] ++ [key])) }

/-- `OpenLABELObjects.parse_objects_dict` (source lines 779-784). -/
def OpenLABELObjects.parse_objects_dict (g : OpenLABELObjects)
    (objects_dict : Assoc String RawObjectDict) (label_file_id : String)
    (frame_number : Option Nat) : OpenLABELObjects :=
  objects_dict.foldl
    (fun g kv => g.add_element_dict label_file_id kv.1 kv.2 frame_number)
    g

/-- `OpenLABELObjects.add_object` (source lines 790-792).  Note the
argument swap in the source: `self._get_element_id(obj_key,
label_file_id)` (key first), embedded as written. -/
def OpenLABELObjects.add_object (g : OpenLABELObjects)
    (obj_key label_file_id : String) (obj : OpenLABELObject) :
    OpenLABELObjects :=
  let obj_id := getElementId obj_key label_file_id
  { g with element_id_to_element := aset g.element_id_to_element obj_id obj }

/-- `OpenLABELObjects.get_objects` (source lines 800-811): for each
resolved stream info, fetch the object keys ingested under its
`label_file_id` and keep each object's filtered version when truthy. -/
def OpenLABELObjects.get_objects (g : OpenLABELObjects)
    (stream_infos : OpenLABELStreamInfos) :
    Except PyError OpenLABELObjects := do
  stream_infos.infos.foldlM
    (fun stream_objects info => do
      -- obj_keys = self._keys_by_label_file_id[label_file_id] (defaultdict)
      let obj_keys : List String :=
        match info.label_file_id with
        | some lfid => (aget g.keys_by_label_file_id lfid).getD []
        | none => []
      obj_keys.foldlM
        (fun stream_objects obj_key => do
          let lfid := info.label_file_id.getD ""
          -- obj_id = self._get_element_id(obj_key, label_file_id):
          -- NB the source passes the key FIRST here, although elements
          -- were stored under `_get_element_id(label_file_id, key)`
          let obj_id := getElementId obj_key lfid
          -- obj = self._element_id_to_element[obj_id] (KeyError on miss)
          let some obj := aget g.element_id_to_element obj_id
            | throw PyError.keyError
          let filtered ← obj.filter_stream info
          match filtered with
          | some o => pure (stream_objects.add_object obj_key lfid o)
          | none => pure stream_objects)
        stream_objects)
    OpenLABELObjects.empty

/-! ## OpenLABELLabelConverter (source lines 28-33, 623-705) -/

/-- `SegmentationType` (source lines 28-33). -/
inductive SegmentationType where
  | INSTANCE
  | POLYLINE
  | SEMANTIC
deriving DecidableEq, Repr

/-- A value stored in a frame label dictionary: either a stream
attribute or an accumulated list of labels. -/
inductive FrameVal where
  | attr : PVal → FrameVal
  | labels : List Label → FrameVal

/-- One `for frame_number, ls in acc.items(): frame_labels[fn][key] = ls`
write-back loop of `to_labels` (defaultdict(dict) semantics). -/
def writeFrameKey (fl : List (Option Nat × Assoc String FrameVal))
    (key : String) (acc : List (Option Nat × List Label)) :
    List (Option Nat × Assoc String FrameVal) :=
  acc.foldl
    (fun fl p =>
      let cur := (aget fl p.1).getD []
      aset fl p.1 (aset cur key (.labels p.2)))
    fl

/-- `OpenLABELLabelConverter.to_labels` (source lines 627-705).  The
per-object accumulation loop raises on the first object for which any
requested label type is processed: `to_detections`/`to_keypoints`
return Python `None` (iterated → TypeError) and `to_segmentations` does
not exist on `OpenLABELObject` (AttributeError; moreover the source
would extend `frame_kps`, not `frame_segs`, with its results).  Hence
the three accumulators are empty whenever the loop completes. -/
def OpenLABELLabelConverter.to_labels (objects : OpenLABELObjects)
    (frame_size : Rat × Rat) (label_types : List String)
    (_seg_type : SegmentationType) (stream_infos : OpenLABELStreamInfos)
    (skeleton : Option (List String)) (skeleton_key : Option String) :
    Except PyError
      (Assoc String PVal × List (Option Nat × Assoc String FrameVal)) := do
  objects.all_objects.forM (fun obj => do
    if "detections" ∈ label_types then do
      let _ ← obj.to_detections frame_size
      -- for frame_number, dets in obj.to_detections(frame_size):
      -- iterating the returned None raises
      throw PyError.typeError
    if "keypoints" ∈ label_types then do
      let _ ← obj.to_keypoints frame_size skeleton skeleton_key
      throw PyError.typeError
    if "segmentations" ∈ label_types then do
      -- obj.to_segmentations(frame_size): no such attribute
      throw PyError.attributeError)
  let frame_dets : List (Option Nat × List Label) := []
  let frame_kps : List (Option Nat × List Label) := []
  let frame_segs : List (Option Nat × List Label) := []
  -- frame_labels[fn] = stream_infos.get_stream_attributes(frame_number=fn)
  let frame_labels : List (Option Nat × Assoc String FrameVal) :=
    stream_infos.frame_numbers.map (fun n =>
      (some n,
       (stream_infos.get_stream_attributes (some n)).map
         (fun kv => (kv.1, FrameVal.attr kv.2))))
  let frame_labels := writeFrameKey frame_labels "detections" frame_dets
  let frame_labels := writeFrameKey frame_labels "keypoints" frame_kps
  let frame_labels := writeFrameKey frame_labels "segmentations" frame_segs
  let sample_labels := stream_infos.get_stream_attributes none
  pure (sample_labels, frame_labels)

/-- `OpenLABELAnnotations.get_labels` (source lines 551-570): resolve the
URI to stream infos, filter the objects, convert. -/
def OpenLABELAnnotations.get_labels (streams : OpenLABELStreams)
    (objects : OpenLABELObjects) (uri : String) (label_types : List String)
    (frame_size : Rat × Rat) (seg_type : SegmentationType)
    (skeleton : Option (List String)) (skeleton_key : Option String) :
    Except PyError
      (Assoc String PVal × List (Option Nat × Assoc String FrameVal)) := do
  let stream_infos ← streams.get_stream_info uri
  let sample_objects ← objects.get_objects stream_infos
  OpenLABELLabelConverter.to_labels sample_objects frame_size label_types
    seg_type stream_infos skeleton skeleton_key

/-! ## Frame-into-sample label merging (source lines 1766-1781) -/

/-- Python `value if isinstance(value, list) else [value]`. -/
def PVal.asPyList : PVal → List PVal
  | .arr l => l
  | v => [v]

/-- The body of `_merge_frame_labels` for one `(name, value)` entry of a
frame dict: skip on a non-list collision, extend an existing list,
insert a missing key. -/
def mergeLabelEntry (sample_labels : Assoc String PVal) (name : String)
    (value : PVal) : Assoc String PVal :=
  match aget sample_labels name with
  | some (.arr l) => aset sample_labels name (.arr (l ++ value.asPyList))
  | some _ => sample_labels
  | none => aset sample_labels name value

/-- `_merge_frame_labels(sample_labels, frame_labels)`: fold every frame
dict's entries into the sample-level dict. -/
def merge_frame_labels (sample_labels : Assoc String PVal)
    (frame_labels : List (Assoc String PVal)) : Assoc String PVal :=
  frame_labels.foldl
    (fun acc labels =>
      labels.foldl (fun a kv => mergeLabelEntry a kv.1 kv.2) acc)
    sample_labels

/-! ## Stream-type invariant definitions -/

/-- The stream `type` values reachable in the registry: unset, the empty
string (which `if _type:` treats as falsy), or `"camera"`. -/
def typeOKb (t : Option String) : Bool :=
  t == none || t == some "" || t == some "camera"

mutual

/-- `typeOKb` holds for a stream and, recursively, for all of its nested
frame-level streams. -/
def streamTypeOKb : OpenLABELStream → Bool
  | .mk _ t _ _ _ _ _ fs => typeOKb t && streamsListTypeOKb fs

/-- `streamTypeOKb` for every stream in a frame-stream table. -/
def streamsListTypeOKb : List (Nat × OpenLABELStream) → Bool
  | [] => true
  | p :: rest => streamTypeOKb p.2 && streamsListTypeOKb rest

end

/-- `streamTypeOKb` for every stream held by a registry. -/
def registryTypeOKb (st : OpenLABELStreams) : Bool :=
  st.element_id_to_element.all (fun kv => streamTypeOKb kv.2)

/-- One ingestion step: the arguments of one `parse_streams_dict` call. -/
structure StreamOp where
  streams_dict : Assoc String RawStreamDict
  label_file_id : String
  frame_number : Option Nat

/-- Apply a sequence of ingestion steps to a fresh registry. -/
def applyStreamOps (ops : List StreamOp) : OpenLABELStreams :=
  ops.foldl
    (fun st op =>
      st.parse_streams_dict op.streams_dict op.label_file_id op.frame_number)
    OpenLABELStreams.empty

/-! ## Concrete inputs used by the claim theorems -/

/-- A bbox shape record with coordinates `(50, 50, 20, 10)`. -/
def bboxShape50 : OpenLABELShape := ⟨.bbox, some [50, 50, 20, 10], [], none⟩

/-- A polygon shape record with coordinates `[0,0, 10,0, 10,10]`. -/
def polyShape10 : OpenLABELShape :=
  ⟨.poly2d, some [0, 0, 10, 0, 10, 10], [], none⟩

/-- An object with frame overrides at frames 1, 2 and 3. -/
def objWithFrames123 : OpenLABELObject :=
  .mk "obj1" none (some "car") OpenLABELShapes.empty OpenLABELShapes.empty
    OpenLABELShapes.empty none []
    [(1, OpenLABELObject.base "obj1" true),
     (2, OpenLABELObject.base "obj1" true),
     (3, OpenLABELObject.base "obj1" true)] false

/-- A frame-level (non-sample-level) stream info selecting frame 2. -/
def frameInfo2 : OpenLABELStreamInfo :=
  { frame_numbers := some [2], stream := some (OpenLABELStream.base "CAM"),
    label_file_id := some "f", is_sample_level := some false }

/-- A top-level object carrying its own stream reference `"CAM1"`. -/
def objWithStream : OpenLABELObject :=
  .mk "obj2" none (some "person") OpenLABELShapes.empty OpenLABELShapes.empty
    OpenLABELShapes.empty (some (.str "CAM1")) [] [] false

/-- A streamless stream info (no stream bound). -/
def streamlessInfo : OpenLABELStreamInfo :=
  { label_file_id := some "f", is_sample_level := some false }

/-- The end-to-end scenario's raw stream dict: a camera stream whose URI
is `img001.jpg`. -/
def scenarioStreamRaw : RawStreamDict :=
  { type := some "camera", stream_properties := none, uri := some "img001.jpg",
    rest := [] }

/-- The stream registry after ingesting the scenario's single label file
(label file id `labels`, one stream named `CAM`). -/
def scenarioStreams : OpenLABELStreams :=
  OpenLABELStreams.empty.parse_streams_dict [("CAM", scenarioStreamRaw)]
    "labels" none

/-- The scenario's raw object dict: type `car`, one 4-coordinate bbox. -/
def scenarioObjectRaw : RawObjectDict :=
  { object_data := some
      { bbox := [{ val := some [320, 240, 100, 50],
                   node := ⟨[("name", .str "shape0")], []⟩ }] },
    type := some "car" }

/-- The object registry after ingesting the scenario's object under label
file id `labels`. -/
def scenarioObjects : OpenLABELObjects :=
  OpenLABELObjects.empty.parse_objects_dict [("0", scenarioObjectRaw)]
    "labels" none

/-- The scenario object, parsed on its own (used for the converter
claims). -/
def carObject : OpenLABELObject :=
  OpenLABELObject.from_anno_dict "0" scenarioObjectRaw none

/-- An object registry holding just `carObject` under label file `f`. -/
def carObjects : OpenLABELObjects :=
  { element_id_to_element := [("f_0", carObject)],
    keys_by_label_file_id := [("f", ["0"])] }

/-- A raw stream dict whose `type` is the empty string. -/
def emptyTypeRaw : RawStreamDict :=
  { type := some "", stream_properties := none, uri := some "x.jpg",
    rest := [] }

/-- A raw stream dict whose `type` is `"lidar"`. -/
def lidarRaw : RawStreamDict :=
  { type := some "lidar", stream_properties := none, uri := some "y.jpg",
    rest := [] }

/-- A raw stream dict whose `type` is `"camera"`. -/
def cameraRaw : RawStreamDict :=
  { type := some "camera", stream_properties := none, uri := some "z.jpg",
    rest := [] }

/-! ## Helper lemmas for the stream-type invariant -/

theorem streamTypeOKb_eq (s : OpenLABELStream) :
    streamTypeOKb s =
      (typeOKb s.type && streamsListTypeOKb s.frame_streams) := by
  cases s
  rfl

theorem setType_type (s : OpenLABELStream) (t : Option String) :
    (s.setType t).type = t := by
  cases s
  rfl

theorem setType_frames (s : OpenLABELStream) (t : Option String) :
    (s.setType t).frame_streams = s.frame_streams := by
  cases s
  rfl

theorem applyProperties_type (s : OpenLABELStream)
    (properties : Option (Assoc String PVal)) :
    (s.applyProperties properties).type = s.type := by
  cases s with
  | mk n t pr hh ww oa u fs =>
    cases properties with
    | none => rfl
    | some props =>
      simp only [OpenLABELStream.applyProperties]
      split <;> rfl

theorem applyProperties_frames (s : OpenLABELStream)
    (properties : Option (Assoc String PVal)) :
    (s.applyProperties properties).frame_streams = s.frame_streams := by
  cases s with
  | mk n t pr hh ww oa u fs =>
    cases properties with
    | none => rfl
    | some props =>
      simp only [OpenLABELStream.applyProperties]
      split <;> rfl

theorem applyUris_type (s : OpenLABELStream) (uris : List String) :
    (s.applyUris uris).type = s.type := by
  cases s
  simp only [OpenLABELStream.applyUris]
  split <;> rfl

theorem applyUris_frames (s : OpenLABELStream) (uris : List String) :
    (s.applyUris uris).frame_streams = s.frame_streams := by
  cases s
  simp only [OpenLABELStream.applyUris]
  split <;> rfl

theorem applyOtherAttrs_type (s : OpenLABELStream)
    (other : Assoc String PVal) :
    (s.applyOtherAttrs other).type = s.type := by
  cases s
  simp only [OpenLABELStream.applyOtherAttrs]
  split <;> rfl

theorem applyOtherAttrs_frames (s : OpenLABELStream)
    (other : Assoc String PVal) :
    (s.applyOtherAttrs other).frame_streams = s.frame_streams := by
  cases s
  simp only [OpenLABELStream.applyOtherAttrs]
  split <;> rfl

theorem update_top_type (s : OpenLABELStream) (d : RawStreamDict) :
    (s.update_top d).type = s.type ∨ (s.update_top d).type = some "camera" := by
  simp only [OpenLABELStream.update_top]
  split
  · exact Or.inl rfl
  · rename_i s1 heq
    rw [applyOtherAttrs_type, applyUris_type, applyProperties_type]
    split at heq
    · split at heq
      · exact absurd heq (by simp)
      · rename_i h1 h2
        injection heq with h
        subst h
        right
        rw [setType_type]
        exact not_ne_iff.mp h2
    · injection heq with h
      subst h
      exact Or.inl rfl

theorem update_top_frames (s : OpenLABELStream) (d : RawStreamDict) :
    (s.update_top d).frame_streams = s.frame_streams := by
  simp only [OpenLABELStream.update_top]
  split
  · rfl
  · rename_i s1 heq
    rw [applyOtherAttrs_frames, applyUris_frames, applyProperties_frames]
    split at heq
    · split at heq
      · exact absurd heq (by simp)
      · injection heq with h
        subst h
        rw [setType_frames]
    · injection heq with h
      subst h
      rfl

theorem streamTypeOKb_base (name : String) :
    streamTypeOKb (OpenLABELStream.base name) = true := rfl

theorem update_top_typeOK (s : OpenLABELStream) (d : RawStreamDict)
    (h : streamTypeOKb s = true) : streamTypeOKb (s.update_top d) = true := by
  rw [streamTypeOKb_eq] at h ⊢
  rw [update_top_frames]
  simp only [Bool.and_eq_true] at h ⊢
  rcases update_top_type s d with ht | ht <;> rw [ht]
  · exact h
  · exact ⟨rfl, h.2⟩

theorem streamsListTypeOKb_append (l1 l2 : List (Nat × OpenLABELStream)) :
    streamsListTypeOKb (l1 ++ l2) =
      (streamsListTypeOKb l1 && streamsListTypeOKb l2) := by
  induction l1 with
  | nil => simp [streamsListTypeOKb]
  | cons p rest ih => simp [streamsListTypeOKb, ih, Bool.and_assoc]

theorem streamsListTypeOKb_mem (l : List (Nat × OpenLABELStream))
    (p : Nat × OpenLABELStream) (hp : p ∈ l)
    (hl : streamsListTypeOKb l = true) : streamTypeOKb p.2 = true := by
  induction l with
  | nil => cases hp
  | cons q rest ih =>
    simp only [streamsListTypeOKb, Bool.and_eq_true] at hl
    rcases List.mem_cons.mp hp with rfl | hp
    · exact hl.1
    · exact ih hp hl.2

theorem streamsListTypeOKb_mapSet (l : List (Nat × OpenLABELStream)) (k : Nat)
    (v : OpenLABELStream) (hl : streamsListTypeOKb l = true)
    (hv : streamTypeOKb v = true) :
    streamsListTypeOKb
      (l.map (fun kv => if kv.1 == k then (k, v) else kv)) = true := by
  induction l with
  | nil => rfl
  | cons p rest ih =>
    simp only [streamsListTypeOKb, Bool.and_eq_true] at hl
    simp only [List.map_cons, streamsListTypeOKb, Bool.and_eq_true]
    refine ⟨?_, ih hl.2⟩
    by_cases hk : p.1 == k
    · simp [hk, hv]
    · simp [hk, hl.1]

theorem streamsListTypeOKb_aset (l : List (Nat × OpenLABELStream)) (k : Nat)
    (v : OpenLABELStream) (hl : streamsListTypeOKb l = true)
    (hv : streamTypeOKb v = true) :
    streamsListTypeOKb (aset l k v) = true := by
  unfold aset
  split
  · exact streamsListTypeOKb_mapSet l k v hl hv
  · rw [streamsListTypeOKb_append]
    simp [streamsListTypeOKb, hl, hv]

theorem aget_mem {κ α : Type} [BEq κ] (d : Assoc κ α) (k : κ) (v : α)
    (h : aget d k = some v) : ∃ kp, kp ∈ d ∧ kp.2 = v := by
  unfold aget at h
  cases hf : d.find? (fun kv => kv.1 == k) with
  | none => rw [hf] at h; cases h
  | some kv =>
    rw [hf] at h
    simp only [Option.map_some'] at h
    injection h with h
    exact ⟨kv, List.mem_of_find?_eq_some hf, h⟩

theorem update_dict_typeOK (s : OpenLABELStream) (d : RawStreamDict)
    (fn : Option Nat) (h : streamTypeOKb s = true) :
    streamTypeOKb (s.update_dict d fn) = true := by
  cases fn with
  | none => exact update_top_typeOK s d h
  | some n =>
    simp only [OpenLABELStream.update_dict]
    split
    · exact update_top_typeOK s d h
    · cases s with
      | mk nm t pr hh ww oa u fs =>
        rw [streamTypeOKb_eq] at h
        simp only [OpenLABELStream.type, OpenLABELStream.frame_streams,
          Bool.and_eq_true] at h
        have hfs0 : streamTypeOKb
            ((aget fs n).getD (OpenLABELStream.base nm)) = true := by
          cases hg : aget fs n with
          | none => exact streamTypeOKb_base nm
          | some v =>
            obtain ⟨kp, hkp, hv⟩ := aget_mem fs n v hg
            simp only [Option.getD_some]
            rw [← hv]
            exact streamsListTypeOKb_mem fs kp hkp h.2
        rw [streamTypeOKb_eq]
        simp only [OpenLABELStream.type, OpenLABELStream.frame_streams,
          Bool.and_eq_true]
        exact ⟨h.1,
          streamsListTypeOKb_aset fs n _ h.2 (update_top_typeOK _ d hfs0)⟩

theorem from_anno_dict_typeOK (name : String) (d : RawStreamDict)
    (fn : Option Nat) (s' : OpenLABELStream)
    (h : OpenLABELStream.from_anno_dict name d fn = some s') :
    streamTypeOKb s' = true := by
  cases fn with
  | some n =>
    simp only [OpenLABELStream.from_anno_dict] at h
    injection h with h
    subst h
    exact update_dict_typeOK _ d (some n) (streamTypeOKb_base name)
  | none =>
    simp only [OpenLABELStream.from_anno_dict] at h
    split at h
    · cases h
    · rename_i hcond
      injection h with h
      subst h
      rw [streamTypeOKb_eq]
      simp only [OpenLABELStream.type, OpenLABELStream.frame_streams,
        streamsListTypeOKb, Bool.and_true]
      simp only [parse_stream_dict] at hcond ⊢
      simp only [Bool.and_eq_true, not_and, decide_eq_true_eq] at hcond
      cases ht : d.type with
      | none => rfl
      | some x =>
        rw [ht] at hcond
        by_cases hx : x = ""
        · subst hx; rfl
        · have hcam : (some x : Option String) = some "camera" :=
            not_ne_iff.mp
              (hcond (by simp [optStrTruthy, optTruthy, hx]))
          injection hcam with hc
          simp [typeOKb, hc]

theorem all_aget {κ α : Type} [BEq κ] (P : α → Bool) (d : Assoc κ α) (k : κ)
    (v : α) (hd : d.all (fun kv => P kv.2) = true) (h : aget d k = some v) :
    P v = true := by
  obtain ⟨kp, hkp, hv⟩ := aget_mem d k v h
  rw [← hv]
  exact (List.all_eq_true.mp hd) kp hkp

theorem all_aset {κ α : Type} [BEq κ] (P : α → Bool) (d : Assoc κ α) (k : κ)
    (v : α) (hd : d.all (fun kv => P kv.2) = true) (hv : P v = true) :
    (aset d k v).all (fun kv => P kv.2) = true := by
  rw [List.all_eq_true] at hd ⊢
  intro kv hkv
  unfold aset at hkv
  split at hkv
  · obtain ⟨kv0, hkv0, rfl⟩ := List.mem_map.mp hkv
    by_cases hk : kv0.1 == k
    · simpa [hk] using hv
    · simpa [hk] using hd kv0 hkv0
  · rcases List.mem_append.mp hkv with hmem | hmem
    · exact hd kv hmem
    · rcases List.mem_singleton.mp hmem with rfl
      exact hv

theorem add_element_dict_typeOK (st : OpenLABELStreams)
    (lfid key : String) (d : RawStreamDict) (fn : Option Nat)
    (h : registryTypeOKb st = true) :
    registryTypeOKb (st.add_element_dict lfid key d fn).1 = true := by
  unfold registryTypeOKb at h ⊢
  simp only [OpenLABELStreams.add_element_dict]
  split
  · rename_i el heq
    split at heq
    · rename_i hget
      exact all_aset _ _ _ _ h (from_anno_dict_typeOK key d fn el heq)
    · rename_i el0 hget
      injection heq with heq
      subst heq
      exact all_aset _ _ _ _ h
        (update_dict_typeOK el0 d fn (all_aget _ _ _ _ h hget))
  · exact h

theorem add_stream_dict_typeOK (st : OpenLABELStreams)
    (lfid stream_name : String) (d : RawStreamDict) (fn : Option Nat)
    (h : registryTypeOKb st = true) :
    registryTypeOKb (st.add_stream_dict lfid stream_name d fn) = true := by
  unfold OpenLABELStreams.add_stream_dict
  have hadd := add_element_dict_typeOK st lfid stream_name d fn h
  dsimp only
  split <;> exact hadd

theorem parse_streams_dict_typeOK
    (entries : Assoc String RawStreamDict) :
    ∀ (st : OpenLABELStreams) (lfid : String) (fn : Option Nat),
      registryTypeOKb st = true →
      registryTypeOKb (st.parse_streams_dict entries lfid fn) = true := by
  induction entries with
  | nil => intro st _ _ h; exact h
  | cons e rest ih =>
    intro st lfid fn h
    unfold OpenLABELStreams.parse_streams_dict at ih ⊢
    simp only [List.foldl_cons]
    exact ih _ lfid fn (add_stream_dict_typeOK st lfid e.1 e.2 fn h)

theorem applyStreamOps_typeOK (ops : List StreamOp) :
    registryTypeOKb (applyStreamOps ops) = true := by
  unfold applyStreamOps
  have base : registryTypeOKb OpenLABELStreams.empty = true := rfl
  generalize OpenLABELStreams.empty = st at base ⊢
  induction ops generalizing st with
  | nil => exact base
  | cons op rest ih =>
    simp only [List.foldl_cons]
    exact ih _ (parse_streams_dict_typeOK op.streams_dict st op.label_file_id
      op.frame_number base)

/-! ## Claim theorems -/

/-- Claim C1 (end-to-end image scenario).  The claim says that for one
label file declaring one camera stream with URI `img001.jpg` and one
object with a single 4-coordinate bbox of type `car`, requesting
`label_types = [detections]` at frame size 640 by 480 yields sample
labels containing the normalized `car` detection under the key
`detections`.  The code instead returns EMPTY sample and frame label
dictionaries: `_get_label_file_id` mangles the stream id `labels_CAM`
into `la`, so no object keys are found under it; and even when objects
are reached, `to_detections` returns Python `None` (missing `return`),
which the converter then crashes iterating. -/
theorem claim_C1 :
    OpenLABELAnnotations.get_labels scenarioStreams scenarioObjects
      "img001.jpg" ["detections"] (640, 480) .INSTANCE none none =
      .ok ([], []) := rfl

/-- Claim C2 (frame-filter pruning).  The claim says filtering an object
against a non-sample-level stream info with frame numbers `[2]` retains
exactly frame 2's override.  `keep_frames` instead POPS the listed
frame numbers: the object with overrides at frames 1, 2 and 3 comes
back with overrides at frames 1 and 3. -/
theorem claim_C2 :
    objWithFrames123.frame_objects.map (·.1) = [1, 2, 3]
    ∧ frameInfo2.frame_numbers = some [2]
    ∧ (objWithFrames123.filter_stream frameInfo2).map
        (Option.map (fun o => o.frame_objects.map (·.1))) = .ok (some [1, 3]) := by
  refine ⟨rfl, rfl, rfl⟩

/-- Claim C3 (streamless filtering).  The claim says a streamless stream
info keeps an object iff it is top-level AND carries no stream
reference of its own.  But `OpenLABELObject.is_streamless` evaluates
`bool(self._sample_level_streams)` on a list that always contains at
least `self.stream` (even when `None`), so it is constantly `true`:
a top-level object that DOES carry its own stream reference (`CAM1`)
is returned unmodified instead of being dropped. -/
theorem claim_C3 :
    objWithStream.stream = some (PVal.str "CAM1")
    ∧ objWithStream.is_frame_level = false
    ∧ streamlessInfo.is_streamless = true
    ∧ objWithStream.is_streamless = true
    ∧ objWithStream.filter_stream streamlessInfo = .ok (some objWithStream) := by
  refine ⟨rfl, rfl, rfl, rfl, rfl⟩

/-- Claim C4 (originating label-file-id).  The claim says a stream
ingested under label file id `labels` resolves to stream infos carrying
`label_file_id = labels`.  `_get_label_file_id` computes
`element_id[: len(element_name) - 1]`, i.e. the first
`len("CAM") - 1 = 2` characters of `labels_CAM`, which is `la`. -/
theorem claim_C4 :
    aget scenarioStreams.keys_by_label_file_id "labels" = some ["CAM"]
    ∧ (scenarioStreams.get_stream_info "img001.jpg").map
        (fun infos => infos.infos.map (·.label_file_id)) = .ok [some "la"]
    ∧ ("la" : String) ≠ "labels" := by
  refine ⟨rfl, rfl, by decide⟩

/-- Claim C5 (segmentation key placement).  The claim says segmentation
labels end up under the `segmentations` key of the frame dictionaries.
With any object present and `segmentations` requested, the converter
raises AttributeError: it calls `obj.to_segmentations(...)`, a method
`OpenLABELObject` does not have (it defines `to_polylines`); the
accumulation line would in any case extend `frame_kps` (the keypoints
accumulator), and the `segmentations` key is only written from
`frame_segs`, which nothing fills. -/
theorem claim_C5 (objects : OpenLABELObjects) (obj : OpenLABELObject)
    (rest : List OpenLABELObject) (h : objects.all_objects = obj :: rest)
    (frame_size : Rat × Rat) (stream_infos : OpenLABELStreamInfos)
    (skeleton : Option (List String)) (skeleton_key : Option String) :
    OpenLABELLabelConverter.to_labels objects frame_size ["segmentations"]
      .POLYLINE stream_infos skeleton skeleton_key =
      .error .attributeError := by
  simp only [OpenLABELLabelConverter.to_labels, h, List.forM_cons]
  rfl

/-- Witness for claim C5 at a concrete registry holding one parsed
object. -/
theorem claim_C5_witness :
    carObjects.all_objects = carObject :: []
    ∧ OpenLABELLabelConverter.to_labels carObjects (10, 10) ["segmentations"]
        .POLYLINE ⟨[]⟩ none none = .error .attributeError :=
  ⟨rfl, claim_C5 carObjects carObject [] rfl (10, 10) ⟨[]⟩ none none⟩

/-- Claim C6 (bbox coordinate normalization).  The claim says `to_label`
returns a Detection with the normalized box; the normalization formula
indeed yields `[0.40, 0.45, 0.20, 0.10]` for coords `(50, 50, 20, 10)`
at frame size 100 by 100, but `to_label` never returns a Detection:
`_attrs = deepcopy(attributes).update(self.attributes)` leaves `_attrs
= None` (dict.update returns None) and `Detection(..., **None)` raises
TypeError. -/
theorem claim_C6 :
    OpenLABELBBox.to_label bboxShape50 (some "car") (some []) 100 100 =
      .error .typeError
    ∧ OpenLABELBBox.bounding_box 50 50 20 10 100 100 =
      [2/5, 9/20, 1/5, 1/10] := by
  constructor
  · rfl
  · simp only [OpenLABELBBox.bounding_box]
    norm_num

/-- Claim C7 (polygon pairing and defaults).  The pairing of the flat
coordinate list into one relative ring matches the claim, but
`to_label` never returns a Polyline: after the same `deepcopy(...)
.update(...)` slip leaves `_attrs = None`, `_attrs.pop("filled", None)`
raises AttributeError (and were the merge repaired, the source's `not
_attrs.get("is_hole", True)` would default `filled` to False, not
True). -/
theorem claim_C7 :
    OpenLABELPoly2D.to_label polyShape10 (some "road") (some []) 10 10 =
      .error .attributeError
    ∧ OpenLABELPoly2D.rel_points [0, 0, 10, 0, 10, 10] 10 10 =
      [[(0, 0), (1, 0), (1, 1)]] := by
  constructor
  · rfl
  · simp only [OpenLABELPoly2D.rel_points, pairwise]
    norm_num

/-- Counterexample to claim C8 as stated: creating a stream from a raw
dict whose `type` is the empty string stores `type = some ""` in the
registry, which is neither unset (`none`) nor `"camera"`; the rest of
that dict (its URI) is applied rather than rejected. -/
theorem claim_C8_counterexample :
    (applyStreamOps [⟨[("CAM", emptyTypeRaw)], "f", none⟩]).element_id_to_element
      = [("f_CAM", .mk "CAM" (some "") none none none [] ["x.jpg"] [])]
    ∧ ¬((some "" : Option String) = none ∨
        (some "" : Option String) = some "camera") := by
  refine ⟨rfl, by decide⟩

/-- Claim C8 as amended (stream type invariant): after any sequence of
stream creations and updates, every stream in the registry (nested
frame-level streams included) has `type` unset, the empty string, or
`"camera"`; and an update dict carrying a non-empty (truthy) `type`
other than `"camera"` is rejected in its entirety, leaving the stream
completely unchanged. -/
theorem claim_C8 :
    (∀ ops : List StreamOp, registryTypeOKb (applyStreamOps ops) = true)
    ∧ (∀ (s : OpenLABELStream) (d : RawStreamDict) (t : String),
        (parse_stream_dict d).1 = some t → t ≠ "" → t ≠ "camera" →
        s.update_dict d none = s) := by
  constructor
  · exact applyStreamOps_typeOK
  · intro s d t h1 h2 h3
    simp only [OpenLABELStream.update_dict, OpenLABELStream.update_top, h1]
    simp [optStrTruthy, optTruthy, h2, h3]

/-- Witness for claim C8: the invariant evaluated on a concrete camera
ingestion, and the wholesale rejection of a `lidar` update. -/
theorem claim_C8_witness :
    registryTypeOKb (applyStreamOps [⟨[("CAM", cameraRaw)], "f", none⟩]) = true
    ∧ (OpenLABELStream.base "CAM").update_dict lidarRaw none =
        OpenLABELStream.base "CAM" :=
  ⟨claim_C8.1 [⟨[("CAM", cameraRaw)], "f", none⟩],
   claim_C8.2 (OpenLABELStream.base "CAM") lidarRaw "lidar" rfl
     (by decide) (by decide)⟩

/-- Claim C9 (streamless resolution never errors).  The claim says
resolving a URI matched by no indexed stream returns a single
streamless sample-level info without raising.  In that branch the
source reads the local variable `label_file_id`, which is never
assigned on that path, so the call raises `UnboundLocalError` for
every unmatched URI. -/
theorem claim_C9 (st : OpenLABELStreams) (uri : String)
    (h : aget st.uri_to_stream_ids uri = none) :
    st.get_stream_info uri = .error .nameError := by
  simp only [OpenLABELStreams.get_stream_info, h]
  rfl

/-- Witness for claim C9 at the empty registry. -/
theorem claim_C9_witness :
    aget (OpenLABELStreams.empty).uri_to_stream_ids "unmatched.jpg" = none
    ∧ OpenLABELStreams.empty.get_stream_info "unmatched.jpg" =
        .error .nameError :=
  ⟨rfl, claim_C9 OpenLABELStreams.empty "unmatched.jpg" rfl⟩

/-- Claim C10 (image label merging).  Merging a frame dict entry `(name,
value)` into the sample-level dict: if `name` is absent it is inserted
as-is; if it maps to a list, `value` (wrapped in a singleton list when
not itself a list) is appended; if it maps to a non-list value, the
frame entry is silently discarded. -/
theorem claim_C10 (sample_labels : Assoc String PVal) (name : String)
    (value : PVal) :
    (aget sample_labels name = none →
      merge_frame_labels sample_labels [[(name, value)]] =
        aset sample_labels name value)
    ∧ (∀ l, aget sample_labels name = some (.arr l) →
        merge_frame_labels sample_labels [[(name, value)]] =
          aset sample_labels name (.arr (l ++ value.asPyList)))
    ∧ (∀ v, aget sample_labels name = some v → (∀ l, v ≠ .arr l) →
        merge_frame_labels sample_labels [[(name, value)]] = sample_labels) := by
  refine ⟨?_, ?_, ?_⟩
  · intro h
    simp [merge_frame_labels, mergeLabelEntry, h]
  · intro l h
    simp [merge_frame_labels, mergeLabelEntry, h]
  · intro v h hv
    cases v <;>
      first
      | exact absurd rfl (hv _)
      | simp [merge_frame_labels, mergeLabelEntry, h]

/-- Witness for claim C10: a fresh key is inserted as-is, and a key
holding a list is extended. -/
theorem claim_C10_witness :
    merge_frame_labels [("tags", PVal.arr [PVal.str "a"])]
        [[("extra", PVal.str "d")]] =
      aset [("tags", PVal.arr [PVal.str "a"])] "extra" (PVal.str "d")
    ∧ merge_frame_labels [("tags", PVal.arr [PVal.str "a"])]
        [[("tags", PVal.str "b")]] =
      aset [("tags", PVal.arr [PVal.str "a"])] "tags"
        (PVal.arr ([PVal.str "a"] ++ (PVal.str "b").asPyList)) :=
  ⟨(claim_C10 [("tags", PVal.arr [PVal.str "a"])] "extra" (PVal.str "d")).1 rfl,
   (claim_C10 [("tags", PVal.arr [PVal.str "a"])] "tags"
     (PVal.str "b")).2.1 [PVal.str "a"] rfl⟩
